import Mathlib

/-!
Verification of the MAC-BLP repository: a Bell-LaPadula mandatory access
control system.  The Python source is shallowly embedded: the pure policy
functions of `security_monitor.py` become Lean functions over `Int` levels,
and the stateful mediator operations of `access_manager.py` and the read
model of `object_manager.py` become functions over an explicit database
state, returning `Except` to model uncaught Python exceptions and a list of
the audit records emitted during the call.
-/

namespace MACBLP

/-- The defined security levels, the keys of `SECURITY_LEVELS` in
`config.py`: 0=Public, 1=Confidential, 2=Secret, 3=Top Secret. -/
def SECURITY_LEVELS : List Int := [0, 1, 2, 3]

/-- `SECURITY_LEVELS.get(level, "Unknown")` from `config.py` /
`security_monitor.py`. -/
def securityLevelName (level : Int) : String :=
  if level == 0 then "Public"
  else if level == 1 then "Confidential"
  else if level == 2 then "Secret"
  else if level == 3 then "Top Secret"
  else "Unknown"

/-- `SecurityMonitor.check_read_access` from `security_monitor.py`:
returns false when either level is not a defined level, otherwise
`user_level >= object_level` (Simple Security Property, no read up). -/
def check_read_access (user_level object_level : Int) : Bool :=
  if !(SECURITY_LEVELS.contains user_level) || !(SECURITY_LEVELS.contains object_level) then
    false
  else
    decide (user_level ≥ object_level)

/-- `SecurityMonitor.check_write_access` from `security_monitor.py`:
returns false when either level is not a defined level, otherwise
`user_level <= object_level` (*-Property, no write down). -/
def check_write_access (user_level object_level : Int) : Bool :=
  if !(SECURITY_LEVELS.contains user_level) || !(SECURITY_LEVELS.contains object_level) then
    false
  else
    decide (user_level ≤ object_level)

/-- `SecurityMonitor.check_delete_access` from `security_monitor.py`. -/
def check_delete_access (user_level object_level : Int)
    (is_owner is_super_admin : Bool) : Bool :=
  if is_super_admin && (user_level == 3) then
    true
  else if is_owner && (user_level == object_level) then
    true
  else
    false

/-- `SecurityMonitor.can_view_object_existence` from `security_monitor.py`:
`user_level >= object_level`, with no membership guard on the levels. -/
def can_view_object_existence (user_level object_level : Int) : Bool :=
  decide (user_level ≥ object_level)

/-- `SecurityMonitor.get_access_description` from `security_monitor.py`. -/
def get_access_description (user_level object_level : Int) (action : String) : String :=
  let user_level_name := securityLevelName user_level
  let object_level_name := securityLevelName object_level
  if action == "read" then
    if user_level ≥ object_level then
      "READ granted: " ++ user_level_name ++ " can read " ++ object_level_name
    else
      "READ denied: " ++ user_level_name ++ " cannot read " ++ object_level_name ++ " (No Read Up)"
  else if action == "write" then
    if user_level ≤ object_level then
      "WRITE granted: " ++ user_level_name ++ " can write to " ++ object_level_name
    else
      "WRITE denied: " ++ user_level_name ++ " cannot write to " ++ object_level_name ++ " (No Write Down)"
  else
    "Unknown action"

/-- `SecurityMonitor.validate_security_level` from `security_monitor.py`. -/
def validate_security_level (level : Int) : Bool :=
  SECURITY_LEVELS.contains level

/-- A row of the `users` table (`database.py`), restricted to the columns the
mediator reads.  `is_super_admin` is stored as a 0/1 integer in SQLite and
tested for truthiness; we model it as a `Bool`. -/
structure DBUser where
  id : Nat
  security_level : Int
  is_super_admin : Bool
deriving DecidableEq

/-- A row of the `objects` table (`database.py`). -/
structure DBObject where
  id : Nat
  name : String
  content : String
  security_level : Int
  owner_id : Nat
deriving DecidableEq

/-- A row appended to the `audit_logs` table by `log_event` (`audit.py`). -/
structure AuditRecord where
  event_type : String
  user_id : Nat
  object_id : Option Nat
  details : String
  success : Bool
deriving DecidableEq

/-- The durable database state: the `users` and `objects` tables, plus the
value SQLite would hand out as `cursor.lastrowid` for the next `INSERT`
into `objects`. -/
structure DBState where
  users : List DBUser
  objects : List DBObject
  next_object_id : Nat
deriving DecidableEq

/-- The storage collaborator as the mediator sees it: the database plus a
fault model.  `load_error = some e` means a `SELECT` issued while loading
the subject or the object raises a `sqlite3` exception with message `e`;
`mutation_error = some e` means the `INSERT`/`UPDATE`/`DELETE` mutation
raises with message `e`. -/
structure Storage where
  db : DBState
  load_error : Option String
  mutation_error : Option String
deriving DecidableEq

/-- `SELECT ... FROM users WHERE id = ?` followed by `fetchone()`. -/
def findUser (s : DBState) (user_id : Nat) : Option DBUser :=
  s.users.find? (fun u => u.id == user_id)

/-- `SELECT ... FROM objects WHERE id = ?` followed by `fetchone()`. -/
def findObject (s : DBState) (object_id : Nat) : Option DBObject :=
  s.objects.find? (fun o => o.id == object_id)

/-- `UPDATE objects SET content = ? WHERE id = ?`. -/
def updateObjectContent (s : DBState) (object_id : Nat) (new_content : String) : DBState :=
  { s with objects := s.objects.map (fun o =>
      if o.id == object_id then { o with content := new_content } else o) }

/-- `DELETE FROM objects WHERE id = ?`. -/
def deleteObjectRow (s : DBState) (object_id : Nat) : DBState :=
  { s with objects := s.objects.filter (fun o => !(o.id == object_id)) }

/-- The result of a mediator call that returns normally: the caller-visible
value, the audit records emitted by `log_event` during the call (in order),
and the database state on return.  A `Except.error e` result is a Python
exception escaping the mediator uncaught. -/
abbrev MedResult (α : Type) := Except String (α × List AuditRecord × DBState)

/-- `AccessManager.request_read_access` from `access_manager.py`.  Returns
`(name, content)` on grant and `None` (here `none`) otherwise. -/
def request_read_access (st : Storage) (user_id object_id : Nat) :
    MedResult (Option (String × String)) :=
  match st.load_error with
  | some e => .error e
  | none =>
    match findUser st.db user_id, findObject st.db object_id with
    | some u, some o =>
      if !(can_view_object_existence u.security_level o.security_level) then
        .ok (none,
          [⟨"read_access", user_id, some object_id,
            "Cannot view object existence - User level: " ++ toString u.security_level ++
              ", Object level: " ++ toString o.security_level, false⟩],
          st.db)
      else if check_read_access u.security_level o.security_level then
        .ok (some (o.name, o.content),
          [⟨"read_access", user_id, some object_id,
            get_access_description u.security_level o.security_level "read", true⟩],
          st.db)
      else
        .ok (none,
          [⟨"read_access", user_id, some object_id,
            get_access_description u.security_level o.security_level "read", false⟩],
          st.db)
    | _, _ =>
      .ok (none,
        [⟨"read_access", user_id, some object_id, "User or object not found", false⟩],
        st.db)

/-- `AccessManager.request_write_access` from `access_manager.py`. -/
def request_write_access (st : Storage) (user_id object_id : Nat) (new_content : String) :
    MedResult Bool :=
  match st.load_error with
  | some e => .error e
  | none =>
    match findUser st.db user_id, findObject st.db object_id with
    | some u, some o =>
      if check_write_access u.security_level o.security_level then
        match st.mutation_error with
        | some e =>
          .ok (false,
            [⟨"write_access", user_id, some object_id, "Database error: " ++ e, false⟩],
            st.db)
        | none =>
          .ok (true,
            [⟨"write_access", user_id, some object_id,
              get_access_description u.security_level o.security_level "write", true⟩],
            updateObjectContent st.db object_id new_content)
      else
        .ok (false,
          [⟨"write_access", user_id, some object_id,
            get_access_description u.security_level o.security_level "write", false⟩],
          st.db)
    | _, _ =>
      .ok (false,
        [⟨"write_access", user_id, some object_id, "User or object not found", false⟩],
        st.db)

/-- `AccessManager.request_object_creation` from `access_manager.py`.
Returns `True` on success (the new object id goes only into the audit
record, via `cursor.lastrowid`). -/
def request_object_creation (st : Storage) (user_id : Nat)
    (object_name content : String) (security_level : Int) : MedResult Bool :=
  match st.load_error with
  | some e => .error e
  | none =>
    match findUser st.db user_id with
    | none =>
      .ok (false, [⟨"create_object", user_id, none, "User not found", false⟩], st.db)
    | some u =>
      if !(validate_security_level security_level) then
        .ok (false,
          [⟨"create_object", user_id, none,
            "Invalid security level: " ++ toString security_level, false⟩],
          st.db)
      else if u.is_super_admin || decide (security_level ≤ u.security_level) then
        match st.mutation_error with
        | some e =>
          .ok (false,
            [⟨"create_object", user_id, none, "Database error: " ++ e, false⟩],
            st.db)
        | none =>
          let new_id := st.db.next_object_id
          .ok (true,
            [⟨"create_object", user_id, some new_id,
              "Object created with level: " ++ toString security_level, true⟩],
            { st.db with
                objects := st.db.objects ++
                  [⟨new_id, object_name, content, security_level, user_id⟩],
                next_object_id := new_id + 1 })
      else
        .ok (false,
          [⟨"create_object", user_id, none,
            "Cannot create object at level " ++ toString security_level ++
              " (user level: " ++ toString u.security_level ++ ")", false⟩],
          st.db)

/-- `AccessManager.request_object_deletion` from `access_manager.py`.
In the denial detail, `is_owner` is a Python bool (prints `True`/`False`)
while `is_super_admin` is the raw 0/1 column value. -/
def request_object_deletion (st : Storage) (user_id object_id : Nat) : MedResult Bool :=
  match st.load_error with
  | some e => .error e
  | none =>
    match findUser st.db user_id, findObject st.db object_id with
    | some u, some o =>
      let is_owner : Bool := user_id == o.owner_id
      if check_delete_access u.security_level o.security_level is_owner u.is_super_admin then
        match st.mutation_error with
        | some e =>
          .ok (false,
            [⟨"delete_object", user_id, some object_id, "Database error: " ++ e, false⟩],
            st.db)
        | none =>
          .ok (true,
            [⟨"delete_object", user_id, some object_id, "Object deleted successfully", true⟩],
            deleteObjectRow st.db object_id)
      else
        .ok (false,
          [⟨"delete_object", user_id, some object_id,
            "Delete access denied - Owner: " ++ (if is_owner then "True" else "False") ++
              ", Super Admin: " ++ (if u.is_super_admin then "1" else "0"), false⟩],
          st.db)
    | _, _ =>
      .ok (false,
        [⟨"delete_object", user_id, some object_id, "User or object not found", false⟩],
        st.db)

/-- A row of the `SELECT id, name, security_level, owner_id` queries used by
`get_accessible_objects` and `search_objects`. -/
structure ObjSummary where
  id : Nat
  name : String
  security_level : Int
  owner_id : Nat
deriving DecidableEq

/-- Projection of an `objects` row onto the listed columns. -/
def DBObject.summary (o : DBObject) : ObjSummary :=
  ⟨o.id, o.name, o.security_level, o.owner_id⟩

/-- The `ORDER BY security_level DESC, name ASC` ordering of the listing
queries: higher level first, ties broken by ascending name. -/
def listOrder (a b : ObjSummary) : Prop :=
  b.security_level < a.security_level ∨
    (a.security_level = b.security_level ∧ a.name ≤ b.name)

instance : DecidableRel listOrder := fun a b => by
  unfold listOrder; infer_instance

/-- `AccessManager.get_accessible_objects` from `access_manager.py`:
no audit record is emitted; unknown users get `[]`; otherwise the rows with
`security_level <= user_level`, ordered by level descending then name
ascending (SQLite's stable sort modelled by insertion sort). -/
def get_accessible_objects (st : Storage) (user_id : Nat) : MedResult (List ObjSummary) :=
  match st.load_error with
  | some e => .error e
  | none =>
    match findUser st.db user_id with
    | none => .ok ([], [], st.db)
    | some u =>
      .ok (List.insertionSort listOrder
            ((st.db.objects.filter (fun o =>
                decide (o.security_level ≤ u.security_level))).map DBObject.summary),
        [], st.db)

/-- `ObjectManager._get_user_security_level` from `object_manager.py`:
the user's `security_level`, or `0` when the user id does not resolve. -/
def get_user_security_level (s : DBState) (user_id : Nat) : Int :=
  match findUser s user_id with
  | some u => u.security_level
  | none => 0

/-- SQLite `name LIKE '%term%'`: case-insensitive (over ASCII) substring
match of the search term against the object name. -/
def likeMatch (term name2 : String) : Bool :=
  decide ((term.data.map Char.toLower) <:+: (name2.data.map Char.toLower))

/-- `ObjectManager.search_objects` from `object_manager.py`: the rows whose
name matches `%search_term%` and whose level is at most the user's level
(0 for an unknown user), ordered by level descending then name ascending. -/
def search_objects (st : Storage) (user_id : Nat) (search_term : String) :
    MedResult (List ObjSummary) :=
  match st.load_error with
  | some e => .error e
  | none =>
    let user_level := get_user_security_level st.db user_id
    .ok (List.insertionSort listOrder
          ((st.db.objects.filter (fun o =>
              likeMatch search_term o.name && decide (o.security_level ≤ user_level))).map
            DBObject.summary),
      [], st.db)

/-- A row of the `SELECT id, name, owner_id` query of `get_objects_by_level`. -/
structure ObjBrief where
  id : Nat
  name : String
  owner_id : Nat
deriving DecidableEq

/-- Projection of an `objects` row onto `(id, name, owner_id)`. -/
def DBObject.brief (o : DBObject) : ObjBrief :=
  ⟨o.id, o.name, o.owner_id⟩

/-- The `ORDER BY name ASC` ordering of `get_objects_by_level`, applied to
the full rows before projection so ties keep table order (stable sort). -/
def nameOrder (a b : DBObject) : Prop := a.name ≤ b.name

instance : DecidableRel nameOrder := fun a b => by
  unfold nameOrder; infer_instance

/-- `ObjectManager.get_objects_by_level` from `object_manager.py`: `[]` when
the requested level exceeds the user's level (0 for an unknown user),
otherwise the rows at exactly that level, ordered by name ascending. -/
def get_objects_by_level (st : Storage) (user_id : Nat) (security_level : Int) :
    MedResult (List ObjBrief) :=
  match st.load_error with
  | some e => .error e
  | none =>
    let user_level := get_user_security_level st.db user_id
    if security_level > user_level then
      .ok ([], [], st.db)
    else
      .ok ((List.insertionSort nameOrder
              (st.db.objects.filter (fun o => o.security_level == security_level))).map
            DBObject.brief,
        [], st.db)

/-! ### Helper lemmas and sample data -/

lemma contains_iff_mem_levels (a : Int) :
    SECURITY_LEVELS.contains a = true ↔ a ∈ SECURITY_LEVELS := by
  simp [SECURITY_LEVELS, List.contains]

lemma mem_levels_iff (a : Int) :
    a ∈ SECURITY_LEVELS ↔ a = 0 ∨ a = 1 ∨ a = 2 ∨ a = 3 := by
  simp [SECURITY_LEVELS]

/-- A Confidential-level ordinary user. -/
def aliceUser : DBUser := ⟨1, 1, false⟩

/-- A Top Secret super admin, as provisioned by `init_database`. -/
def adminUser : DBUser := ⟨2, 3, true⟩

/-- A Secret-level object owned by the ordinary user. -/
def secretObj : DBObject := ⟨1, "alpha", "ca", 2, 1⟩

/-- A Public-level object owned by the admin. -/
def publicObj : DBObject := ⟨2, "beta", "cb", 0, 2⟩

/-- A sample database with two users and two objects. -/
def sampleDB : DBState := ⟨[aliceUser, adminUser], [secretObj, publicObj], 3⟩

/-- The sample database behind a healthy storage layer. -/
def sampleStorage : Storage := ⟨sampleDB, none, none⟩

/-- A mediator call that returned normally, emitted exactly one audit
record, and whose record's success flag matches the granted/ok reading of
the returned value. -/
def emitsOneAuditMatching {α : Type} (r : MedResult α) (granted : α → Bool) : Prop :=
  ∃ v recs db2, r = Except.ok (v, recs, db2) ∧ recs.length = 1 ∧
    ∀ rec ∈ recs, rec.success = granted v

lemma request_read_access_audit (st : Storage) (user_id object_id : Nat)
    (h : st.load_error = none) :
    emitsOneAuditMatching (request_read_access st user_id object_id)
      (fun v => v.isSome) := by
  unfold emitsOneAuditMatching request_read_access
  rw [h]
  cases hu : findUser st.db user_id with
  | none =>
    cases ho : findObject st.db object_id with
    | none => simp; exact ⟨_, _, ⟨rfl, rfl⟩, rfl, by simp⟩
    | some o => simp; exact ⟨_, _, ⟨rfl, rfl⟩, rfl, by simp⟩
  | some u =>
    cases ho : findObject st.db object_id with
    | none => simp; exact ⟨_, _, ⟨rfl, rfl⟩, rfl, by simp⟩
    | some o =>
      cases hv : can_view_object_existence u.security_level o.security_level with
      | false => simp [hv]; exact ⟨_, _, ⟨rfl, rfl⟩, rfl, by simp⟩
      | true =>
        cases hr : check_read_access u.security_level o.security_level with
        | false => simp [hv, hr]; exact ⟨_, _, ⟨rfl, rfl⟩, rfl, by simp⟩
        | true => simp [hv, hr]; exact ⟨_, _, ⟨rfl, rfl⟩, rfl, by simp⟩

lemma request_write_access_audit (st : Storage) (user_id object_id : Nat)
    (new_content : String) (h : st.load_error = none) :
    emitsOneAuditMatching (request_write_access st user_id object_id new_content)
      (fun v => v) := by
  unfold emitsOneAuditMatching request_write_access
  rw [h]
  cases hu : findUser st.db user_id with
  | none =>
    cases ho : findObject st.db object_id with
    | none => simp
    | some o => simp
  | some u =>
    cases ho : findObject st.db object_id with
    | none => simp
    | some o =>
      cases hw : check_write_access u.security_level o.security_level with
      | false => simp [hw]
      | true =>
        cases hm : st.mutation_error with
        | none => simp [hw, hm]
        | some e => simp [hw, hm]

lemma request_object_creation_audit (st : Storage) (user_id : Nat)
    (object_name content : String) (security_level : Int)
    (h : st.load_error = none) :
    emitsOneAuditMatching
      (request_object_creation st user_id object_name content security_level)
      (fun v => v) := by
  unfold emitsOneAuditMatching request_object_creation
  rw [h]
  cases hu : findUser st.db user_id with
  | none => simp
  | some u =>
    cases hl : validate_security_level security_level with
    | false => simp [hl]
    | true =>
      cases hp : u.is_super_admin || decide (security_level ≤ u.security_level) with
      | false => simp [hl, hp]
      | true =>
        cases hm : st.mutation_error with
        | none => simp [hl, hp, hm]
        | some e => simp [hl, hp, hm]

lemma request_object_deletion_audit (st : Storage) (user_id object_id : Nat)
    (h : st.load_error = none) :
    emitsOneAuditMatching (request_object_deletion st user_id object_id)
      (fun v => v) := by
  unfold emitsOneAuditMatching request_object_deletion
  rw [h]
  cases hu : findUser st.db user_id with
  | none =>
    cases ho : findObject st.db object_id with
    | none => simp
    | some o => simp
  | some u =>
    cases ho : findObject st.db object_id with
    | none => simp
    | some o =>
      cases hd : check_delete_access u.security_level o.security_level
          (user_id == o.owner_id) u.is_super_admin with
      | false => simp [hd]
      | true =>
        cases hm : st.mutation_error with
        | none => simp [hd, hm]
        | some e => simp [hd, hm]

lemma get_accessible_objects_no_audit (st : Storage) (user_id : Nat)
    (h : st.load_error = none) :
    ∃ v db2, get_accessible_objects st user_id = Except.ok (v, [], db2) := by
  unfold get_accessible_objects
  rw [h]
  cases hu : findUser st.db user_id with
  | none => exact ⟨_, _, rfl⟩
  | some u => exact ⟨_, _, rfl⟩

/-! ### Claims about the policy engine -/

/-- C2: for levels `a, b` in the defined set `{0,1,2,3}`,
`check_read_access a b` is `a ≥ b` and `check_write_access a b` is `a ≤ b`;
when either level is outside the set both checks return false. -/
theorem check_access_on_levels (a b : Int) :
    (a ∈ SECURITY_LEVELS → b ∈ SECURITY_LEVELS →
      check_read_access a b = decide (a ≥ b) ∧ check_write_access a b = decide (a ≤ b)) ∧
    ((a ∉ SECURITY_LEVELS ∨ b ∉ SECURITY_LEVELS) →
      check_read_access a b = false ∧ check_write_access a b = false) := by
  constructor
  · intro ha hb
    have ha' := (contains_iff_mem_levels a).mpr ha
    have hb' := (contains_iff_mem_levels b).mpr hb
    unfold check_read_access check_write_access
    rw [ha', hb']
    simp
  · intro h
    rcases h with h | h
    · have ha0 : SECURITY_LEVELS.contains a = false := by
        cases hc : SECURITY_LEVELS.contains a
        · rfl
        · exact absurd ((contains_iff_mem_levels a).mp hc) h
      unfold check_read_access check_write_access
      rw [ha0]
      simp
    · have hb0 : SECURITY_LEVELS.contains b = false := by
        cases hc : SECURITY_LEVELS.contains b
        · rfl
        · exact absurd ((contains_iff_mem_levels b).mp hc) h
      unfold check_read_access check_write_access
      rw [hb0]
      simp

/-- Witness for C2 at the concrete pairs `(2,1)` (both defined) and
`(5,1)` (first level undefined). -/
theorem check_access_on_levels_witness :
    (check_read_access 2 1 = decide ((2 : Int) ≥ 1) ∧
      check_write_access 2 1 = decide ((2 : Int) ≤ 1)) ∧
    (check_read_access 5 1 = false ∧ check_write_access 5 1 = false) :=
  ⟨(check_access_on_levels 2 1).1 (by decide) (by decide),
   (check_access_on_levels 5 1).2 (Or.inl (by decide))⟩

/-- C3 counterexample: at the pair `(5, 4)`, both outside the defined level
set in the first component, `can_view_object_existence` returns true while
`check_read_access` returns false, so the two predicates are not identical
over all integer levels. -/
theorem can_view_existence_diverges_from_read :
    can_view_object_existence 5 4 = true ∧ check_read_access 5 4 = false := by
  decide

/-- C3 (amended): `can_view_object_existence` agrees with
`check_read_access` whenever both levels belong to the defined set; outside
it, `can_view_object_existence` is still `a ≥ b` while `check_read_access`
is false. -/
theorem can_view_existence_matches_read_on_levels (a b : Int)
    (ha : a ∈ SECURITY_LEVELS) (hb : b ∈ SECURITY_LEVELS) :
    can_view_object_existence a b = check_read_access a b := by
  have ha' := (contains_iff_mem_levels a).mpr ha
  have hb' := (contains_iff_mem_levels b).mpr hb
  unfold can_view_object_existence check_read_access
  rw [ha', hb']
  simp

/-- Witness for the amended C3 at the defined pair `(2, 1)`. -/
theorem can_view_existence_matches_read_witness :
    can_view_object_existence 2 1 = check_read_access 2 1 :=
  can_view_existence_matches_read_on_levels 2 1 (by decide) (by decide)

/-- C4: `check_delete_access` grants exactly when the subject is a super
admin at level 3 or the owner at the object's own level; a Top Secret super
admin is granted on any object, and ownership without level equality (and
without the super-admin clause) is denied. -/
theorem check_delete_access_spec (u o : Int) (ow sa : Bool) :
    (check_delete_access u o ow sa = true ↔
      ((sa = true ∧ u = 3) ∨ (ow = true ∧ u = o))) ∧
    check_delete_access 3 o ow true = true ∧
    (u ≠ o → ¬(sa = true ∧ u = 3) → check_delete_access u o true sa = false) := by
  refine ⟨?_, ?_, ?_⟩
  · unfold check_delete_access
    cases sa <;> cases ow <;> simp [beq_iff_eq]
  · unfold check_delete_access
    simp
  · intro hne hns
    unfold check_delete_access
    cases sa
    · simp [beq_iff_eq, hne]
    · simp only [Bool.true_and]
      have : ¬(u = 3) := fun h => hns ⟨rfl, h⟩
      simp [beq_iff_eq, this, hne]

/-- Witness for C4 at levels `u = 1`, `o = 2`, owner without level
equality, no super-admin flag. -/
theorem check_delete_access_spec_witness :
    ((check_delete_access 1 2 true false = true ↔
        ((false = true ∧ (1 : Int) = 3) ∨ (true = true ∧ (1 : Int) = 2))) ∧
      check_delete_access 3 2 true true = true ∧
      check_delete_access 1 2 true false = false) := by
  have h := check_delete_access_spec 1 2 true false
  exact ⟨h.1, (check_delete_access_spec 3 2 true true).2.1,
    h.2.2 (by decide) (by decide)⟩

/-- A storage layer whose mutation statements fail with "disk full" while
loads succeed. -/
def faultyMutStorage : Storage := ⟨sampleDB, none, some "disk full"⟩

/-- C1 counterexample: `get_accessible_objects` (the Mediator's
ListAccessible) is a mediated operation that emits zero audit records, here
on a successful listing for an existing subject, refuting "every mediated
operation produces exactly one audit record". -/
theorem list_accessible_zero_audit_records :
    get_accessible_objects sampleStorage 1 =
      Except.ok ([⟨2, "beta", 0, 2⟩], ([] : List AuditRecord), sampleDB) := rfl

/-- C1 (amended): when the subject/object loads succeed, each of the four
request operations (read, write, create, delete) emits exactly one audit
record, whose success flag is true exactly when the returned outcome is the
granted/ok result; `get_accessible_objects` emits none. -/
theorem mediator_audit_discipline (st : Storage) (user_id object_id : Nat)
    (object_name content new_content : String) (security_level : Int)
    (h : st.load_error = none) :
    emitsOneAuditMatching (request_read_access st user_id object_id)
      (fun v => v.isSome) ∧
    emitsOneAuditMatching (request_write_access st user_id object_id new_content)
      (fun v => v) ∧
    emitsOneAuditMatching
      (request_object_creation st user_id object_name content security_level)
      (fun v => v) ∧
    emitsOneAuditMatching (request_object_deletion st user_id object_id)
      (fun v => v) ∧
    (∃ v db2, get_accessible_objects st user_id = Except.ok (v, [], db2)) :=
  ⟨request_read_access_audit st user_id object_id h,
   request_write_access_audit st user_id object_id new_content h,
   request_object_creation_audit st user_id object_name content security_level h,
   request_object_deletion_audit st user_id object_id h,
   get_accessible_objects_no_audit st user_id h⟩

/-- Witness for the amended C1 on the sample storage. -/
theorem mediator_audit_discipline_witness :
    emitsOneAuditMatching (request_read_access sampleStorage 1 1)
      (fun v => v.isSome) ∧
    emitsOneAuditMatching (request_write_access sampleStorage 1 1 "nc")
      (fun v => v) ∧
    emitsOneAuditMatching (request_object_creation sampleStorage 1 "n" "c" 1)
      (fun v => v) ∧
    emitsOneAuditMatching (request_object_deletion sampleStorage 1 1)
      (fun v => v) ∧
    (∃ v db2, get_accessible_objects sampleStorage 1 = Except.ok (v, [], db2)) :=
  mediator_audit_discipline sampleStorage 1 1 "n" "c" "nc" 1 rfl

/-- C7 counterexample: a storage error raised while loading the subject or
object is not caught by the Mediator; it escapes to the caller as an
uncaught fault (modelled by `Except.error`), with no audit record. -/
theorem load_fault_escapes_mediator :
    request_read_access ⟨sampleDB, some "database is locked", none⟩ 1 1 =
      Except.error "database is locked" := rfl

/-- C7 (amended): when loading the subject and object succeeds, every
mediator operation returns normally: missing entities, policy denials,
invalid levels, and storage failures raised during the mutation are all
converted to a not-ok outcome inside the Mediator; only a storage error
raised while loading escapes uncaught. -/
theorem mediator_converts_faults (st : Storage) (user_id object_id : Nat)
    (object_name content new_content : String) (security_level : Int)
    (h : st.load_error = none) :
    (∃ r, request_read_access st user_id object_id = Except.ok r) ∧
    (∃ r, request_write_access st user_id object_id new_content = Except.ok r) ∧
    (∃ r, request_object_creation st user_id object_name content security_level =
      Except.ok r) ∧
    (∃ r, request_object_deletion st user_id object_id = Except.ok r) ∧
    (∃ r, get_accessible_objects st user_id = Except.ok r) := by
  obtain ⟨v1, r1, d1, he1, -, -⟩ := request_read_access_audit st user_id object_id h
  obtain ⟨v2, r2, d2, he2, -, -⟩ :=
    request_write_access_audit st user_id object_id new_content h
  obtain ⟨v3, r3, d3, he3, -, -⟩ :=
    request_object_creation_audit st user_id object_name content security_level h
  obtain ⟨v4, r4, d4, he4, -, -⟩ := request_object_deletion_audit st user_id object_id h
  obtain ⟨v5, d5, he5⟩ := get_accessible_objects_no_audit st user_id h
  exact ⟨⟨_, he1⟩, ⟨_, he2⟩, ⟨_, he3⟩, ⟨_, he4⟩, ⟨_, he5⟩⟩

/-- Witness for the amended C7, on a storage whose mutations fail: the
operations still return normally. -/
theorem mediator_converts_faults_witness :
    (∃ r, request_read_access faultyMutStorage 1 1 = Except.ok r) ∧
    (∃ r, request_write_access faultyMutStorage 1 1 "nc" = Except.ok r) ∧
    (∃ r, request_object_creation faultyMutStorage 1 "n" "c" 1 = Except.ok r) ∧
    (∃ r, request_object_deletion faultyMutStorage 1 1 = Except.ok r) ∧
    (∃ r, get_accessible_objects faultyMutStorage 1 = Except.ok r) :=
  mediator_converts_faults faultyMutStorage 1 1 "n" "c" "nc" 1 rfl

/-- C6: the caller-visible result of `request_read_access` on an object id
that does not resolve equals its result on an object that exists but whose
existence the subject may not view: both paths return `none`, so the caller
cannot distinguish the two. -/
theorem read_missing_vs_invisible (st1 st2 : Storage) (uid1 uid2 oid1 oid2 : Nat)
    (u2 : DBUser) (o2 : DBObject)
    (h1 : st1.load_error = none) (h2 : st2.load_error = none)
    (ho1 : findObject st1.db oid1 = none)
    (hu2 : findUser st2.db uid2 = some u2)
    (ho2 : findObject st2.db oid2 = some o2)
    (hv : can_view_object_existence u2.security_level o2.security_level = false) :
    Except.map (fun r => r.1) (request_read_access st1 uid1 oid1) =
      Except.ok (none : Option (String × String)) ∧
    Except.map (fun r => r.1) (request_read_access st2 uid2 oid2) =
      Except.ok (none : Option (String × String)) ∧
    Except.map (fun r => r.1) (request_read_access st1 uid1 oid1) =
      Except.map (fun r => r.1) (request_read_access st2 uid2 oid2) := by
  have e1 : Except.map (fun r => r.1) (request_read_access st1 uid1 oid1) =
      Except.ok (none : Option (String × String)) := by
    unfold request_read_access
    rw [h1]
    cases hu1 : findUser st1.db uid1 with
    | none => simp [ho1, Except.map]
    | some u1 => simp [ho1, Except.map]
  have e2 : Except.map (fun r => r.1) (request_read_access st2 uid2 oid2) =
      Except.ok (none : Option (String × String)) := by
    unfold request_read_access
    rw [h2]
    simp [hu2, ho2, hv, Except.map]
  exact ⟨e1, e2, by rw [e1, e2]⟩

/-- Witness for C6: object 99 does not exist in the sample database, while
object 1 (Secret) exists but is invisible to subject 1 (Confidential). -/
theorem read_missing_vs_invisible_witness :
    Except.map (fun r => r.1) (request_read_access sampleStorage 1 99) =
      Except.ok (none : Option (String × String)) ∧
    Except.map (fun r => r.1) (request_read_access sampleStorage 1 1) =
      Except.ok (none : Option (String × String)) ∧
    Except.map (fun r => r.1) (request_read_access sampleStorage 1 99) =
      Except.map (fun r => r.1) (request_read_access sampleStorage 1 1) :=
  read_missing_vs_invisible sampleStorage sampleStorage 1 1 99 1 aliceUser secretObj
    rfl rfl rfl rfl rfl (by decide)

lemma string_ne_of_head_ne {s t : String} (h : s.data.head? ≠ t.data.head?) :
    s ≠ t :=
  fun he => h (congrArg (fun x => x.data.head?) he)

lemma database_error_head (e : String) :
    ("Database error: " ++ e).data.head? = some 'D' := rfl

lemma write_description_head (a b : Int) :
    (get_access_description a b "write").data.head? = some 'W' := by
  unfold get_access_description
  split
  · rename_i hcontra
    exact absurd hcontra (by decide)
  · split
    · split
      · rfl
      · rfl
    · rename_i hcontra
      exact absurd rfl hcontra

/-- C8: when subject and object both load, `request_write_access` on a
granted write persists the new content and audits success; if the `UPDATE`
itself raises, it audits a storage-error failure whose detail differs from
every policy-denial description and returns not-ok with the database
unchanged; and on a policy denial it audits the denial and returns not-ok
without mutating the object. -/
theorem request_write_access_spec (st : Storage) (user_id object_id : Nat)
    (new_content e : String) (u : DBUser) (o : DBObject)
    (h : st.load_error = none)
    (hu : findUser st.db user_id = some u)
    (ho : findObject st.db object_id = some o) :
    (check_write_access u.security_level o.security_level = true →
      st.mutation_error = none →
      request_write_access st user_id object_id new_content =
        Except.ok (true,
          [⟨"write_access", user_id, some object_id,
            get_access_description u.security_level o.security_level "write", true⟩],
          updateObjectContent st.db object_id new_content)) ∧
    (check_write_access u.security_level o.security_level = true →
      st.mutation_error = some e →
      request_write_access st user_id object_id new_content =
        Except.ok (false,
          [⟨"write_access", user_id, some object_id, "Database error: " ++ e, false⟩],
          st.db) ∧
      "Database error: " ++ e ≠
        get_access_description u.security_level o.security_level "write") ∧
    (check_write_access u.security_level o.security_level = false →
      request_write_access st user_id object_id new_content =
        Except.ok (false,
          [⟨"write_access", user_id, some object_id,
            get_access_description u.security_level o.security_level "write", false⟩],
          st.db)) := by
  refine ⟨?_, ?_, ?_⟩
  · intro hw hm
    unfold request_write_access
    rw [h]
    simp [hu, ho, hw, hm]
  · intro hw hm
    refine ⟨?_, ?_⟩
    · unfold request_write_access
      rw [h]
      simp [hu, ho, hw, hm]
    · apply string_ne_of_head_ne
      rw [database_error_head, write_description_head]
      simp
  · intro hw
    unfold request_write_access
    rw [h]
    simp [hu, ho, hw]

/-- Witness for C8: subject 1 (Confidential) writing object 1 (Secret) is
granted and persists on the healthy storage but audits a database error on
the mutation-faulty storage; subject 2 (Top Secret) writing object 2
(Public) is a policy denial. -/
theorem request_write_access_spec_witness :
    request_write_access sampleStorage 1 1 "new" =
      Except.ok (true,
        [⟨"write_access", 1, some 1, get_access_description 1 2 "write", true⟩],
        updateObjectContent sampleDB 1 "new") ∧
    (request_write_access faultyMutStorage 1 1 "new" =
      Except.ok (false,
        [⟨"write_access", 1, some 1, "Database error: " ++ "disk full", false⟩],
        sampleDB) ∧
      "Database error: " ++ "disk full" ≠ get_access_description 1 2 "write") ∧
    request_write_access sampleStorage 2 2 "new" =
      Except.ok (false,
        [⟨"write_access", 2, some 2, get_access_description 3 0 "write", false⟩],
        sampleDB) :=
  ⟨(request_write_access_spec sampleStorage 1 1 "new" "x" aliceUser secretObj
      rfl rfl rfl).1 rfl rfl,
   (request_write_access_spec faultyMutStorage 1 1 "new" "disk full" aliceUser secretObj
      rfl rfl rfl).2.1 rfl rfl,
   (request_write_access_spec sampleStorage 2 2 "new" "x" adminUser publicObj
      rfl rfl rfl).2.2 rfl⟩

/-- A database holding only the ordinary user, whose next inserted object
would get id 7. -/
def sevenDB : DBState := ⟨[aliceUser], [], 7⟩

/-- Like `sevenDB` but the next inserted object would get id 8. -/
def eightDB : DBState := ⟨[aliceUser], [], 8⟩

/-- C5 counterexample: two granted creations that persist objects with
different new ids (7 and 8) return the identical caller-visible value
`true`: `request_object_creation` returns the boolean success flag, not the
new object id. -/
theorem create_returns_flag_not_new_id :
    Except.map (fun r => r.1) (request_object_creation ⟨sevenDB, none, none⟩ 1 "x" "y" 1) =
      Except.map (fun r => r.1)
        (request_object_creation ⟨eightDB, none, none⟩ 1 "x" "y" 1) ∧
    Except.map (fun r => r.2.2.objects.map DBObject.id)
        (request_object_creation ⟨sevenDB, none, none⟩ 1 "x" "y" 1) = Except.ok [7] ∧
    Except.map (fun r => r.2.2.objects.map DBObject.id)
        (request_object_creation ⟨eightDB, none, none⟩ 1 "x" "y" 1) = Except.ok [8] ∧
    Except.map (fun r => r.1) (request_object_creation ⟨sevenDB, none, none⟩ 1 "x" "y" 1) =
      Except.ok true :=
  ⟨rfl, rfl, rfl, rfl⟩

/-- C5 (amended): for an existing subject and a level in the defined set,
creation is permitted iff the subject is a super admin or the level is at
most the subject's level; on grant the object is persisted (appended with
id `next_object_id`) and the call returns `true`, the success flag — the
new object id goes into the audit record, not the return value; on denial
nothing is persisted. -/
theorem request_object_creation_spec (st : Storage) (user_id : Nat)
    (object_name content : String) (security_level : Int) (u : DBUser)
    (h : st.load_error = none) (hm : st.mutation_error = none)
    (hu : findUser st.db user_id = some u)
    (hl : security_level ∈ SECURITY_LEVELS) :
    (u.is_super_admin = true ∨ security_level ≤ u.security_level →
      request_object_creation st user_id object_name content security_level =
        Except.ok (true,
          [⟨"create_object", user_id, some st.db.next_object_id,
            "Object created with level: " ++ toString security_level, true⟩],
          { st.db with
              objects := st.db.objects ++
                [⟨st.db.next_object_id, object_name, content, security_level, user_id⟩],
              next_object_id := st.db.next_object_id + 1 })) ∧
    (¬(u.is_super_admin = true ∨ security_level ≤ u.security_level) →
      request_object_creation st user_id object_name content security_level =
        Except.ok (false,
          [⟨"create_object", user_id, none,
            "Cannot create object at level " ++ toString security_level ++
              " (user level: " ++ toString u.security_level ++ ")", false⟩],
          st.db)) := by
  have hv : validate_security_level security_level = true :=
    (contains_iff_mem_levels security_level).mpr hl
  constructor
  · intro hok
    have hp : (u.is_super_admin || decide (security_level ≤ u.security_level)) = true := by
      rcases hok with h1 | h1 <;> simp [h1]
    unfold request_object_creation
    rw [h]
    simp [hu, hv, hp, hm]
  · intro hno
    have h1 : u.is_super_admin = false := by
      cases hq : u.is_super_admin
      · rfl
      · exact absurd (Or.inl hq) hno
    have h2 : ¬(security_level ≤ u.security_level) := fun hle => hno (Or.inr hle)
    unfold request_object_creation
    rw [h]
    simp [hu, hv, h1, h2]

/-- Witness for the amended C5: the Confidential user creates at level 1
(granted, persisted with id 3) and at level 2 (denied, nothing persisted). -/
theorem request_object_creation_spec_witness :
    request_object_creation sampleStorage 1 "n" "c" 1 =
      Except.ok (true,
        [⟨"create_object", 1, some 3,
          "Object created with level: " ++ toString (1 : Int), true⟩],
        { sampleDB with
            objects := sampleDB.objects ++ [⟨3, "n", "c", 1, 1⟩],
            next_object_id := 4 }) ∧
    request_object_creation sampleStorage 1 "n" "c" 2 =
      Except.ok (false,
        [⟨"create_object", 1, none,
          "Cannot create object at level " ++ toString (2 : Int) ++
            " (user level: " ++ toString (1 : Int) ++ ")", false⟩],
        sampleDB) :=
  ⟨(request_object_creation_spec sampleStorage 1 "n" "c" 1 aliceUser
      rfl rfl rfl (by decide)).1 (Or.inr (by decide)),
   (request_object_creation_spec sampleStorage 1 "n" "c" 2 aliceUser
      rfl rfl rfl (by decide)).2 (by decide)⟩

instance : IsTrans ObjSummary listOrder where
  trans a b c hab hbc := by
    unfold listOrder at hab hbc ⊢
    rcases hab with h1 | ⟨h1, h1n⟩ <;> rcases hbc with h2 | ⟨h2, h2n⟩
    · exact Or.inl (by omega)
    · exact Or.inl (by omega)
    · exact Or.inl (by omega)
    · exact Or.inr ⟨by omega, le_trans h1n h2n⟩

instance : IsTotal ObjSummary listOrder where
  total a b := by
    unfold listOrder
    rcases lt_trichotomy a.security_level b.security_level with h | h | h
    · exact Or.inr (Or.inl h)
    · rcases le_total a.name b.name with hn | hn
      · exact Or.inl (Or.inr ⟨h, hn⟩)
      · exact Or.inr (Or.inr ⟨h.symm, hn⟩)
    · exact Or.inl (Or.inl h)

/-- C9: `get_accessible_objects` returns, for an existing subject, exactly
the objects whose level is at most the subject's level (as a permutation of
the filtered table, with membership in both directions), sorted by
descending security level with ties broken by ascending name; for an
unknown subject id it returns the empty list rather than an error. -/
theorem get_accessible_objects_spec (st : Storage) (user_id : Nat)
    (h : st.load_error = none) :
    (findUser st.db user_id = none →
      get_accessible_objects st user_id = Except.ok ([], [], st.db)) ∧
    (∀ u, findUser st.db user_id = some u →
      ∃ res, get_accessible_objects st user_id = Except.ok (res, [], st.db) ∧
        List.Perm res ((st.db.objects.filter (fun o =>
          decide (o.security_level ≤ u.security_level))).map DBObject.summary) ∧
        List.Sorted listOrder res ∧
        (∀ s ∈ res, s.security_level ≤ u.security_level) ∧
        (∀ o ∈ st.db.objects, o.security_level ≤ u.security_level →
          DBObject.summary o ∈ res)) := by
  constructor
  · intro hu
    unfold get_accessible_objects
    rw [h]
    simp [hu]
  · intro u hu
    unfold get_accessible_objects
    rw [h]
    simp only [hu]
    refine ⟨_, rfl, List.perm_insertionSort listOrder _,
      List.sorted_insertionSort listOrder _, ?_, ?_⟩
    · intro s hs
      have hs2 := (List.perm_insertionSort listOrder _).mem_iff.mp hs
      simp only [List.mem_map, List.mem_filter, decide_eq_true_eq] at hs2
      obtain ⟨o, ⟨-, ho2⟩, rfl⟩ := hs2
      exact ho2
    · intro o ho hle
      refine (List.perm_insertionSort listOrder _).mem_iff.mpr ?_
      simp only [List.mem_map, List.mem_filter, decide_eq_true_eq]
      exact ⟨o, ⟨ho, hle⟩, rfl⟩

/-- Witness for C9: unknown subject 99 gets `[]`; the Top Secret admin
(subject 2) gets a listing covering both sample objects. -/
theorem get_accessible_objects_spec_witness :
    get_accessible_objects sampleStorage 99 = Except.ok ([], [], sampleDB) ∧
    (∃ res, get_accessible_objects sampleStorage 2 = Except.ok (res, [], sampleDB) ∧
      List.Perm res ((sampleDB.objects.filter (fun o =>
        decide (o.security_level ≤ adminUser.security_level))).map DBObject.summary) ∧
      List.Sorted listOrder res ∧
      (∀ s ∈ res, s.security_level ≤ adminUser.security_level) ∧
      (∀ o ∈ sampleDB.objects, o.security_level ≤ adminUser.security_level →
        DBObject.summary o ∈ res)) :=
  ⟨(get_accessible_objects_spec sampleStorage 99 rfl).1 rfl,
   (get_accessible_objects_spec sampleStorage 2 rfl).2 adminUser rfl⟩

/-- C10: for an unknown subject id the Object Directory treats the
subject's security level as 0 (Public): `search_objects` returns exactly
the Public-level objects matching the pattern (given the level invariant on
the table), and `get_objects_by_level` returns rows only when queried at
level 0, where it returns exactly the Public-level objects. -/
theorem unknown_subject_directory_defaults (st : Storage) (user_id : Nat)
    (search_term : String) (security_level : Int)
    (h : st.load_error = none) (hu : findUser st.db user_id = none)
    (hinv : ∀ o ∈ st.db.objects, o.security_level ∈ SECURITY_LEVELS) :
    get_user_security_level st.db user_id = 0 ∧
    (∃ res, search_objects st user_id search_term = Except.ok (res, [], st.db) ∧
      ∀ s, s ∈ res ↔ ∃ o ∈ st.db.objects, o.security_level = 0 ∧
        likeMatch search_term o.name = true ∧ DBObject.summary o = s) ∧
    (0 < security_level →
      get_objects_by_level st user_id security_level = Except.ok ([], [], st.db)) ∧
    (∃ res, get_objects_by_level st user_id 0 = Except.ok (res, [], st.db) ∧
      ∀ b, b ∈ res ↔ ∃ o ∈ st.db.objects, o.security_level = 0 ∧
        DBObject.brief o = b) := by
  have hlvl : get_user_security_level st.db user_id = 0 := by
    unfold get_user_security_level
    rw [hu]
  refine ⟨hlvl, ?_, ?_, ?_⟩
  · unfold search_objects
    rw [h, hlvl]
    refine ⟨_, rfl, ?_⟩
    intro s
    rw [(List.perm_insertionSort listOrder _).mem_iff]
    simp only [List.mem_map, List.mem_filter, Bool.and_eq_true, decide_eq_true_eq]
    constructor
    · rintro ⟨o, ⟨ho, hlm, hle⟩, rfl⟩
      have hmem := (mem_levels_iff o.security_level).mp (hinv o ho)
      exact ⟨o, ho, by omega, hlm, rfl⟩
    · rintro ⟨o, ho, h0, hlm, rfl⟩
      exact ⟨o, ⟨ho, hlm, by omega⟩, rfl⟩
  · intro hpos
    unfold get_objects_by_level
    rw [h, hlvl]
    simp [hpos]
  · unfold get_objects_by_level
    rw [h, hlvl]
    simp only [gt_iff_lt, lt_self_iff_false, if_false]
    refine ⟨_, rfl, ?_⟩
    intro b
    simp only [List.mem_map]
    constructor
    · rintro ⟨o, ho, rfl⟩
      rw [(List.perm_insertionSort nameOrder _).mem_iff] at ho
      simp only [List.mem_filter, beq_iff_eq] at ho
      exact ⟨o, ho.1, ho.2, rfl⟩
    · rintro ⟨o, ho, h0, rfl⟩
      refine ⟨o, ?_, rfl⟩
      rw [(List.perm_insertionSort nameOrder _).mem_iff]
      simp only [List.mem_filter, beq_iff_eq]
      exact ⟨ho, h0⟩

/-- Witness for C10 on the sample database at unknown subject 99, pattern
"BET" (matching the Public object "beta" case-insensitively), and query
level 1. -/
theorem unknown_subject_directory_defaults_witness :
    get_user_security_level sampleDB 99 = 0 ∧
    (∃ res, search_objects sampleStorage 99 "BET" = Except.ok (res, [], sampleDB) ∧
      ∀ s, s ∈ res ↔ ∃ o ∈ sampleDB.objects, o.security_level = 0 ∧
        likeMatch "BET" o.name = true ∧ DBObject.summary o = s) ∧
    get_objects_by_level sampleStorage 99 1 = Except.ok ([], [], sampleDB) ∧
    (∃ res, get_objects_by_level sampleStorage 99 0 = Except.ok (res, [], sampleDB) ∧
      ∀ b, b ∈ res ↔ ∃ o ∈ sampleDB.objects, o.security_level = 0 ∧
        DBObject.brief o = b) :=
  have w := unknown_subject_directory_defaults sampleStorage 99 "BET" 1 rfl rfl (by decide)
  ⟨w.1, w.2.1, w.2.2.1 (by decide), w.2.2.2⟩

end MACBLP
